import Mathlib

/-!
Verification development for the termux-music-shuffle-player repository
(two near-duplicate scripts: ffplay-music-player.py and
music-shuffle-player-termux.py).

The embedding below translates the scripts' pure computations directly
(MD5 over the base filename, CPython os.path.splitext / os.path.basename,
extension filtering) and models the scripts' filesystem effects as explicit
state passing over an association-list temp-directory, with failure points
of the staging routine, player outcomes, and the interrupt path made
explicit as inductive parameters.
-/

/-! ## MD5 (hashlib.md5(...).hexdigest()) over Nat bytes, 32-bit modular arithmetic -/

def w32 : Nat := 4294967296

def bnot32 (x : Nat) : Nat := Nat.xor (x % w32) 4294967295

def rotl32 (x s : Nat) : Nat := ((x <<< s) ||| (x >>> (32 - s))) % w32

/-- The 64 MD5 round constants (RFC 1321 T table). -/
def md5K : List Nat :=
  [0xd76aa478, 0xe8c7b756, 0x242070db, 0xc1bdceee,
   0xf57c0faf, 0x4787c62a, 0xa8304613, 0xfd469501,
   0x698098d8, 0x8b44f7af, 0xffff5bb1, 0x895cd7be,
   0x6b901122, 0xfd987193, 0xa679438e, 0x49b40821,
   0xf61e2562, 0xc040b340, 0x265e5a51, 0xe9b6c7aa,
   0xd62f105d, 0x02441453, 0xd8a1e681, 0xe7d3fbc8,
   0x21e1cde6, 0xc33707d6, 0xf4d50d87, 0x455a14ed,
   0xa9e3e905, 0xfcefa3f8, 0x676f02d9, 0x8d2a4c8a,
   0xfffa3942, 0x8771f681, 0x6d9d6122, 0xfde5380c,
   0xa4beea44, 0x4bdecfa9, 0xf6bb4b60, 0xbebfbc70,
   0x289b7ec6, 0xeaa127fa, 0xd4ef3085, 0x04881d05,
   0xd9d4d039, 0xe6db99e5, 0x1fa27cf8, 0xc4ac5665,
   0xf4292244, 0x432aff97, 0xab9423a7, 0xfc93a039,
   0x655b59c3, 0x8f0ccc92, 0xffeff47d, 0x85845dd1,
   0x6fa87e4f, 0xfe2ce6e0, 0xa3014314, 0x4e0811a1,
   0xf7537e82, 0xbd3af235, 0x2ad7d2bb, 0xeb86d391]

/-- The 64 MD5 per-round left-rotation amounts. -/
def md5S : List Nat :=
  [7, 12, 17, 22, 7, 12, 17, 22, 7, 12, 17, 22, 7, 12, 17, 22,
   5, 9, 14, 20, 5, 9, 14, 20, 5, 9, 14, 20, 5, 9, 14, 20,
   4, 11, 16, 23, 4, 11, 16, 23, 4, 11, 16, 23, 4, 11, 16, 23,
   6, 10, 15, 21, 6, 10, 15, 21, 6, 10, 15, 21, 6, 10, 15, 21]

def md5F (b c d i : Nat) : Nat :=
  if i < 16 then Nat.lor (Nat.land b c) (Nat.land (bnot32 b) d)
  else if i < 32 then Nat.lor (Nat.land d b) (Nat.land (bnot32 d) c)
  else if i < 48 then Nat.xor (Nat.xor b c) d
  else Nat.xor c (Nat.lor b (bnot32 d))

def md5G (i : Nat) : Nat :=
  if i < 16 then i
  else if i < 32 then (5 * i + 1) % 16
  else if i < 48 then (3 * i + 5) % 16
  else (7 * i) % 16

def md5step (M : List Nat) (st : Nat × Nat × Nat × Nat) (i : Nat) :
    Nat × Nat × Nat × Nat :=
  let a := st.1
  let b := st.2.1
  let c := st.2.2.1
  let d := st.2.2.2
  let f := (md5F b c d i + a + md5K.getD i 0 + M.getD (md5G i) 0) % w32
  (d, (b + rotl32 f (md5S.getD i 0)) % w32, b, c)

def md5chunk (h : Nat × Nat × Nat × Nat) (M : List Nat) :
    Nat × Nat × Nat × Nat :=
  let r := (List.range 64).foldl (md5step M) h
  ((h.1 + r.1) % w32, (h.2.1 + r.2.1) % w32,
   (h.2.2.1 + r.2.2.1) % w32, (h.2.2.2 + r.2.2.2) % w32)

def leWords : List Nat → List Nat
  | b0 :: b1 :: b2 :: b3 :: rest =>
      (b0 + 256 * (b1 + 256 * (b2 + 256 * b3))) :: leWords rest
  | _ => []

/-- Split a byte list into 64-byte chunks (fuel-driven so it reduces in the kernel). -/
def chunksAux : Nat → List Nat → List (List Nat)
  | 0, _ => []
  | _ + 1, [] => []
  | n + 1, a :: l => ((a :: l).take 64) :: chunksAux n ((a :: l).drop 64)

def chunks64 (l : List Nat) : List (List Nat) := chunksAux l.length l

def leBytes8 (n : Nat) : List Nat :=
  (List.range 8).map (fun i => (n >>> (8 * i)) % 256)

def leBytes4 (n : Nat) : List Nat :=
  [n % 256, (n >>> 8) % 256, (n >>> 16) % 256, (n >>> 24) % 256]

/-- MD5 padding: 0x80, zeros to 56 mod 64, then the bit length in 8 LE bytes. -/
def md5pad (msg : List Nat) : List Nat :=
  let len := msg.length
  let bitLen := (8 * len) % (2 ^ 64)
  let padZeros := (119 - len % 64) % 64
  msg ++ 0x80 :: (List.replicate padZeros 0 ++ leBytes8 bitLen)

def hexChar (n : Nat) : Char :=
  if n < 10 then Char.ofNat (48 + n) else Char.ofNat (87 + n)

def byteHex (b : Nat) : List Char := [hexChar (b / 16), hexChar (b % 16)]

def md5hexOfBytes (msg : List Nat) : String :=
  let padded := md5pad msg
  let r := (chunks64 padded).foldl (fun h ch => md5chunk h (leWords ch))
    (0x67452301, 0xefcdab89, 0x98badcfe, 0x10325476)
  String.mk (([r.1, r.2.1, r.2.2.1, r.2.2.2].flatMap leBytes4).flatMap byteHex)

def utf8EncodeChar (c : Char) : List Nat :=
  let n := c.toNat
  if n < 0x80 then [n]
  else if n < 0x800 then
    [0xC0 ||| (n >>> 6), 0x80 ||| (Nat.land n 0x3F)]
  else if n < 0x10000 then
    [0xE0 ||| (n >>> 12), 0x80 ||| (Nat.land (n >>> 6) 0x3F),
     0x80 ||| (Nat.land n 0x3F)]
  else
    [0xF0 ||| (n >>> 18), 0x80 ||| (Nat.land (n >>> 12) 0x3F),
     0x80 ||| (Nat.land (n >>> 6) 0x3F), 0x80 ||| (Nat.land n 0x3F)]

/-- hashlib.md5(s.encode(utf-8)).hexdigest() : UTF-8 encode, MD5, lowercase hex. -/
def md5hex (s : String) : String :=
  md5hexOfBytes (s.data.flatMap utf8EncodeChar)

/-! ## os.path helpers (CPython posixpath semantics, specialised to basenames) -/

/-- On the reversed character list, split at the first dot: returns
(chars after the last dot of the original, reversed; chars before it, reversed). -/
def splitRevAtDot : List Char → Option (List Char × List Char)
  | [] => none
  | c :: cs =>
      if c = '.' then some ([], cs)
      else
        match splitRevAtDot cs with
        | none => none
        | some p => some (c :: p.1, p.2)

/-- CPython os.path.splitext on a basename (no path separators): split at the
last dot, provided some character strictly before that dot is not a dot;
otherwise the extension is empty (leading dots never start an extension). -/
def splitext (s : List Char) : List Char × List Char :=
  match splitRevAtDot s.reverse with
  | none => (s, [])
  | some p =>
      if p.2.any (fun c => decide (c ≠ '.')) then
        (p.2.reverse, '.' :: p.1.reverse)
      else (s, [])

def splitextStr (s : String) : String × String :=
  (String.mk (splitext s.data).1, String.mk (splitext s.data).2)

/-- posixpath.basename: everything after the last slash. -/
def basenameStr (p : String) : String :=
  String.mk ((p.data.reverse.takeWhile (fun c => decide (c ≠ '/'))).reverse)

/-- Python str.lower restricted to the ASCII range used by extensions. -/
def lowerStr (s : String) : String := String.mk (s.data.map Char.toLower)

/-- os.path.join(root, name) for a relative name. -/
def joinPath (root name : String) : String := root ++ "/" ++ name

/-! ## Library scanner (MUSIC_EXTS, gather_music_files) -/

/-- The allow-list of supported audio extensions (same literal in both scripts). -/
def MUSIC_EXTS : List String :=
  [".mp3", ".flac", ".wav", ".m4a", ".ogg", ".aac",
   ".opus", ".wma", ".ape", ".aiff", ".dsf"]

/-- The filtering decision of gather_music_files:
ext = os.path.splitext(name)[1].lower(); ext in MUSIC_EXTS. -/
def keepName (name : String) : Bool :=
  MUSIC_EXTS.contains (lowerStr (splitextStr name).2)

/-- gather_music_files: os.walk is modelled by its result, a list of
(root, filenames) pairs; for each root, each filename whose lowercased
extension is allow-listed contributes os.path.join(root, name), in walk order. -/
def gather_music_files (walk : List (String × List String)) : List String :=
  walk.flatMap (fun rn => (rn.2.filter keepName).map (joinPath rn.1))

/-! ## Temp name derivation (copy_to_temp_md5, lines 98-104 / 62-68) -/

/-- desired_name = hashlib.md5(name_without_ext.encode(utf-8)).hexdigest() + ext,
computed from basename = os.path.basename(original_path). The extension is the
one returned by splitext, with its original case (no .lower() here). -/
def desired_name (original_path : String) : String :=
  md5hex (splitextStr (basenameStr original_path)).1 ++
    (splitextStr (basenameStr original_path)).2

/-- dest_path = os.path.join(temp_dir, desired_name). -/
def dest_path (temp_dir original_path : String) : String :=
  joinPath temp_dir (desired_name original_path)

/-! ## Filesystem model: the temp directory as an association list path -> bytes -/

abbrev FileContent := List Nat

abbrev FS := List (String × FileContent)

def fsLookup : FS → String → Option FileContent
  | [], _ => none
  | e :: t, p => if e.1 = p then some e.2 else fsLookup t p

def fsErase : FS → String → FS
  | [], _ => []
  | e :: t, p => if e.1 = p then fsErase t p else e :: fsErase t p

/-- Creating/overwriting a file at path p. -/
def fsWrite (fs : FS) (p : String) (c : FileContent) : FS :=
  (p, c) :: fsErase fs p

/-- os.rename(src, dst): atomic; replaces dst if present, no-op model if src absent. -/
def fsRename (fs : FS) (src dst : String) : FS :=
  match fsLookup fs src with
  | none => fs
  | some c => fsWrite (fsErase fs src) dst c

def fsExists (fs : FS) (p : String) : Bool := (fsLookup fs p).isSome

/-- How many directory entries sit at path p. -/
def fsCount : FS → String → Nat
  | [], _ => 0
  | e :: t, p => if e.1 = p then fsCount t p + 1 else fsCount t p

/-! ## Staging (copy_to_temp_md5): explicit failure points and state trace -/

/-- Where (if anywhere) copy_to_temp_md5 raises.
atCreate: tempfile.NamedTemporaryFile itself raises, no scratch file exists.
atCopy: shutil.copyfileobj raises mid-stream; the scratch file exists holding a
truncated copy, and the local tmp_path was never assigned.
atRemoveDest: os.remove(dest_path) raises.
atRename: os.rename raises. -/
inductive StageFailPoint
  | atCreate
  | atCopy
  | atRemoveDest
  | atRename
  | noFail
deriving DecidableEq

/-- What copy_to_temp_md5 does at the call boundary: returns dest_path,
returns None, or lets an exception escape (uncaught). -/
inductive StageRes
  | ok (path : String)
  | errNone
  | uncaught
deriving DecidableEq

/-- A run of copy_to_temp_md5: the sequence of temp-directory snapshots
(initial state first, one snapshot after each filesystem mutation or
attempted mutation, final state last) and the returned value. -/
structure StageRun where
  fs : FS
  trace : List FS
  result : StageRes
deriving DecidableEq

/-- copy_to_temp_md5 of ffplay-music-player.py (lines 91-120).
scratch_name is the fresh name chosen by NamedTemporaryFile; content is the
source file's bytes; truncated is whatever prefix got written before a
mid-copy failure. On failure after the scratch exists and tmp_path is bound,
the handler removes the scratch and returns None; on a mid-copy failure
tmp_path is unbound, so the guard (tmp_path in locals()) is false and the
scratch file is left behind. -/
def copy_to_temp_md5_ffplay (fs0 : FS) (temp_dir original_path : String)
    (content truncated : FileContent) (scratch_name : String)
    (failAt : StageFailPoint) : StageRun :=
  let dp := dest_path temp_dir original_path
  let sp := joinPath temp_dir scratch_name
  match failAt with
  | .atCreate => ⟨fs0, [fs0], .errNone⟩
  | .atCopy =>
      let fs1 := fsWrite fs0 sp truncated
      ⟨fs1, [fs0, fs1], .errNone⟩
  | .atRemoveDest =>
      let fs1 := fsWrite fs0 sp content
      let fs2 := fsErase fs1 sp
      ⟨fs2, [fs0, fs1, fs2], .errNone⟩
  | .atRename =>
      let fs1 := fsWrite fs0 sp content
      let fs2 := if fsExists fs1 dp then fsErase fs1 dp else fs1
      let fs3 := fsErase fs2 sp
      ⟨fs3, [fs0, fs1, fs2, fs3], .errNone⟩
  | .noFail =>
      let fs1 := fsWrite fs0 sp content
      let fs2 := if fsExists fs1 dp then fsErase fs1 dp else fs1
      let fs3 := fsRename fs2 sp dp
      ⟨fs3, [fs0, fs1, fs2, fs3], .ok dp⟩

/-- copy_to_temp_md5 of music-shuffle-player-termux.py (lines 53-89).
Identical to the ffplay variant except for the mid-copy failure: its handler
runs os.path.exists(tmp_path) with tmp_path unbound, raising NameError, so the
exception escapes the function (and the scratch file is left behind). -/
def copy_to_temp_md5_termux (fs0 : FS) (temp_dir original_path : String)
    (content truncated : FileContent) (scratch_name : String)
    (failAt : StageFailPoint) : StageRun :=
  let dp := dest_path temp_dir original_path
  let sp := joinPath temp_dir scratch_name
  match failAt with
  | .atCreate => ⟨fs0, [fs0], .errNone⟩
  | .atCopy =>
      let fs1 := fsWrite fs0 sp truncated
      ⟨fs1, [fs0, fs1], .uncaught⟩
  | .atRemoveDest =>
      let fs1 := fsWrite fs0 sp content
      let fs2 := fsErase fs1 sp
      ⟨fs2, [fs0, fs1, fs2], .errNone⟩
  | .atRename =>
      let fs1 := fsWrite fs0 sp content
      let fs2 := if fsExists fs1 dp then fsErase fs1 dp else fs1
      let fs3 := fsErase fs2 sp
      ⟨fs3, [fs0, fs1, fs2, fs3], .errNone⟩
  | .noFail =>
      let fs1 := fsWrite fs0 sp content
      let fs2 := if fsExists fs1 dp then fsErase fs1 dp else fs1
      let fs3 := fsRename fs2 sp dp
      ⟨fs3, [fs0, fs1, fs2, fs3], .ok dp⟩

/-! ## Player supervision (play_file, is_playing, cleanup_ffplay) -/

/-- What happens to the ffplay subprocess during play_file:
it exits with a return code, Popen fails to spawn it, or a KeyboardInterrupt
arrives while waiting. -/
inductive SpawnOutcome
  | exited (returncode : Int)
  | spawnError
  | interrupted
deriving DecidableEq

/-- play_file of ffplay-music-player.py (lines 122-156): zero return code gives
True, nonzero gives False, a spawn exception is caught (except Exception) and
gives False, and a KeyboardInterrupt kills ffplay and re-raises (modelled as
none, the exception propagating to the caller). -/
def play_file_ffplay : SpawnOutcome → Option Bool
  | .exited rc => if rc ≠ 0 then some false else some true
  | .spawnError => some false
  | .interrupted => none

/-- What happens to subprocess.run of termux-media-player play: it exits with a
return code, or the executable is missing (FileNotFoundError). -/
inductive RunOutcome
  | exited (returncode : Int)
  | execMissing
deriving DecidableEq

/-- play_file of music-shuffle-player-termux.py (lines 92-100): check=True means
a nonzero return code raises CalledProcessError, caught and mapped to False;
zero gives True; a FileNotFoundError is not caught (none: exception escapes). -/
def play_file_termux : RunOutcome → Option Bool
  | .exited rc => if rc ≠ 0 then some false else some true
  | .execMissing => none

/-- Outcome of subprocess.check_output of termux-media-player info. -/
inductive InfoOutcome
  | output (s : String)
  | calledProcessError
  | fileNotFound
deriving DecidableEq

/-- Result of is_playing: a boolean, or the whole process exiting. -/
inductive PollRes
  | val (b : Bool)
  | exitProcess (code : Nat)
deriving DecidableEq

/-- Whether the first list is a leading segment of the second. -/
def leadsL : List Char → List Char → Bool
  | [], _ => true
  | _ :: _, [] => false
  | a :: ps, b :: ss => a = b && leadsL ps ss

/-- Python substring membership (pat in s) on character lists. -/
def containsSub (pat : List Char) : List Char → Bool
  | [] => leadsL pat []
  | b :: t => leadsL pat (b :: t) || containsSub pat t

/-- is_playing of music-shuffle-player-termux.py (lines 33-50): True iff the
command output does not contain the substring given in the source; a nonzero
exit gives False; a missing executable calls sys.exit(1). -/
def is_playing : InfoOutcome → PollRes
  | .output s => .val (!(containsSub ("No track currently").data s.data))
  | .calledProcessError => .val false
  | .fileNotFound => .exitProcess 1

/-- The ffplay process handle as cleanup_ffplay sees it: whether poll() is None
(still alive) and whether terminate plus the 2-second wait suffices (no
TimeoutExpired). -/
structure PlayerProc where
  alive : Bool
  diesWithinGrace : Bool
deriving DecidableEq

inductive KillAction
  | terminate
  | kill
deriving DecidableEq

/-- cleanup_ffplay (lines 80-89): if a live process is recorded, send terminate,
wait up to 2 seconds, kill on timeout, and clear the global slot; otherwise do
nothing (a dead recorded handle is left in place). Returns the list of signals
sent, in order, and the new slot value. -/
def cleanup_ffplay : Option PlayerProc → List KillAction × Option PlayerProc
  | none => ([], none)
  | some pr =>
      if pr.alive then
        (if pr.diesWithinGrace then [.terminate] else [.terminate, .kill], none)
      else ([], some pr)

/-! ## Playback loop iterations after a successful stage -/

/-- How one loop iteration ends: move on to the next track, or the whole
process terminates with the given exit status. -/
inductive IterEnd
  | nextTrack
  | exitCode (n : Nat)
deriving DecidableEq

/-- The per-track body of main in ffplay-music-player.py (lines 205-220), after
copy_to_temp_md5 succeeded with temp_path: play_file runs with the given
subprocess outcome, and the finally block removes temp_path with OSError
(including a missing file) ignored — modelled by the total fsErase. A
KeyboardInterrupt kills ffplay, still runs the finally removal, and reaches
the outer handler which exits with status 0. -/
def loop_iteration_ffplay (fs : FS) (temp_path : String)
    (outcome : SpawnOutcome) : FS × IterEnd :=
  match outcome with
  | .exited _ => (fsErase fs temp_path, .nextTrack)
  | .spawnError => (fsErase fs temp_path, .nextTrack)
  | .interrupted => (fsErase fs temp_path, .exitCode 0)

/-- What the termux per-track body observes after staging succeeded. -/
inductive TermuxPlayEvent
  | playRefused
  | playOkThenFinish
  | playOkThenPollMissing
  | playExecMissing
  | interrupted
deriving DecidableEq

/-- The per-track body of main in music-shuffle-player-termux.py (lines
139-169), after copy_to_temp_md5 succeeded with temp_path.
playRefused: play_file returned False, so os.remove(temp_path) runs, continue
fires the finally whose second removal hits OSError and is ignored.
playOkThenFinish: the poll loop ends, the finally removes temp_path.
playOkThenPollMissing: is_playing hits FileNotFoundError and calls
sys.exit(1); the finally still removes temp_path on the way out.
playExecMissing: play_file raises FileNotFoundError, uncaught; the finally
removes temp_path and the interpreter dies with a traceback (exit status 1).
interrupted: KeyboardInterrupt; finally removes temp_path, the outer handler
stops the player and exits with status 0. -/
def loop_iteration_termux (fs : FS) (temp_path : String)
    (ev : TermuxPlayEvent) : FS × IterEnd :=
  match ev with
  | .playRefused => (fsErase (fsErase fs temp_path) temp_path, .nextTrack)
  | .playOkThenFinish => (fsErase fs temp_path, .nextTrack)
  | .playOkThenPollMissing => (fsErase fs temp_path, .exitCode 1)
  | .playExecMissing => (fsErase fs temp_path, .exitCode 1)
  | .interrupted => (fsErase fs temp_path, .exitCode 0)

/-! ## Startup (main, before the playback loop) -/

/-- The facts main consults before its loop: len(sys.argv), whether
os.path.isdir holds for the argument, whether the external player is on PATH
(shutil.which in check_ffplay), and the os.walk result of the folder. -/
structure StartupEnv where
  argc : Nat
  folderIsDir : Bool
  playerOnPath : Bool
  walk : List (String × List String)

inductive StartupRes
  | exit1
  | proceed (songs : List String)
deriving DecidableEq

/-- Startup of ffplay-music-player.py main (lines 168-191): wrong argument
count, non-directory, missing ffplay (check_ffplay calls sys.exit(1)), or an
empty scan each exit with status 1 before anything is staged or played. -/
def main_startup_ffplay (e : StartupEnv) : StartupRes :=
  if e.argc ≠ 2 then .exit1
  else if !e.folderIsDir then .exit1
  else if !e.playerOnPath then .exit1
  else
    let songs := gather_music_files e.walk
    if songs = [] then .exit1 else .proceed songs

/-- Startup of music-shuffle-player-termux.py main (lines 114-134): wrong
argument count, non-directory, or an empty scan exit with status 1; there is
no check of the external player at startup. -/
def main_startup_termux (e : StartupEnv) : StartupRes :=
  if e.argc ≠ 2 then .exit1
  else if !e.folderIsDir then .exit1
  else
    let songs := gather_music_files e.walk
    if songs = [] then .exit1 else .proceed songs

/-! ## Helper lemmas about the filesystem model -/

theorem fsLookup_fsErase_self (fs : FS) (p : String) :
    fsLookup (fsErase fs p) p = none := by
  induction fs with
  | nil => rfl
  | cons e t ih =>
      by_cases h : e.1 = p
      · simpa [fsErase, h] using ih
      · simp [fsErase, fsLookup, h, ih]

theorem fsLookup_fsErase_ne (fs : FS) (p q : String) (h : q ≠ p) :
    fsLookup (fsErase fs p) q = fsLookup fs q := by
  induction fs with
  | nil => rfl
  | cons e t ih =>
      by_cases h1 : e.1 = p
      · simp [fsErase, fsLookup, h1, Ne.symm h, ih]
      · by_cases h2 : e.1 = q <;> simp [fsErase, fsLookup, h1, h2, h, ih]

theorem fsLookup_fsWrite_self (fs : FS) (p : String) (c : FileContent) :
    fsLookup (fsWrite fs p c) p = some c := by
  simp [fsWrite, fsLookup]

theorem fsLookup_fsWrite_ne (fs : FS) (p q : String) (c : FileContent)
    (h : q ≠ p) :
    fsLookup (fsWrite fs p c) q = fsLookup fs q := by
  simp [fsWrite, fsLookup, Ne.symm h, fsLookup_fsErase_ne fs p q h]

theorem fsCount_fsErase_self (fs : FS) (p : String) :
    fsCount (fsErase fs p) p = 0 := by
  induction fs with
  | nil => rfl
  | cons e t ih => by_cases h : e.1 = p <;> simp [fsErase, fsCount, h, ih]

theorem fsCount_fsWrite_self (fs : FS) (p : String) (c : FileContent) :
    fsCount (fsWrite fs p c) p = 1 := by
  simp [fsWrite, fsCount, fsCount_fsErase_self]

theorem fsLookup_ifErase_self (fs : FS) (p : String) :
    fsLookup (if fsExists fs p then fsErase fs p else fs) p = none := by
  by_cases h : fsExists fs p
  · simp [h, fsLookup_fsErase_self]
  · have h2 : fsLookup fs p = none := by
      simpa [fsExists, Option.isSome_iff_ne_none, not_not] using h
    simp [h, h2]

theorem fsLookup_ifErase_other (fs : FS) (p q : String) (h : q ≠ p) :
    fsLookup (if fsExists fs p then fsErase fs p else fs) q = fsLookup fs q := by
  by_cases hc : fsExists fs p <;> simp [hc, fsLookup_fsErase_ne fs p q h]

theorem fsRename_ok (fs : FS) (src dst : String) (c : FileContent)
    (h : fsLookup fs src = some c) :
    fsLookup (fsRename fs src dst) dst = some c ∧
    fsCount (fsRename fs src dst) dst = 1 := by
  simp [fsRename, h, fsLookup_fsWrite_self, fsCount_fsWrite_self]

/-! ## Helper lemmas about paths -/

theorem takeWhile_append_stop (p : Char → Bool) (l1 l2 : List Char) (a : Char)
    (h1 : ∀ x ∈ l1, p x = true) (h2 : p a = false) :
    (l1 ++ a :: l2).takeWhile p = l1 := by
  induction l1 with
  | nil => simp [List.takeWhile_cons, h2]
  | cons b t ih =>
      have hb : p b = true := h1 b (List.mem_cons_self _ _)
      simp [List.takeWhile_cons, hb,
        ih (fun x hx => h1 x (List.mem_cons_of_mem _ hx))]

theorem basenameStr_slash_append (d base : String) (h : '/' ∉ base.data) :
    basenameStr (d ++ "/" ++ base) = base := by
  have hall : ∀ x ∈ base.data.reverse, (fun c => decide (c ≠ '/')) x = true := by
    intro x hx
    have hx2 : x ∈ base.data := List.mem_reverse.mp hx
    simp only [decide_eq_true_eq]
    intro he
    exact h (he ▸ hx2)
  have hdata : (d ++ "/" ++ base).data.reverse =
      base.data.reverse ++ ('/' :: d.data.reverse) := by
    simp [String.data_append]
  unfold basenameStr
  rw [hdata, takeWhile_append_stop _ _ _ _ hall (by simp), List.reverse_reverse]

theorem strAppend_left_cancel (a b c : String) (h : a ++ b = a ++ c) : b = c := by
  have hd : a.data ++ b.data = a.data ++ c.data := by
    have := congrArg String.data h
    simpa [String.data_append] using this
  have hbc : b.data = c.data := List.append_cancel_left hd
  rcases b with ⟨lb⟩
  rcases c with ⟨lc⟩
  exact congrArg String.mk hbc

/-! ## Claim theorems -/

/-- Claim C1: for every track iteration (both variants), whatever the outcome
of the play step (normal completion, playback failure, spawn failure, poll
exit, or interruption), the staged file is removed from the temp directory
before the iteration ends; the removal that finds the file already missing is
the try/except-OSError-pass of the finally block, embedded here in the total
fsErase, so it is ignored rather than propagated. -/
theorem C1_staged_file_always_removed (fs : FS) (temp_path : String)
    (oF : SpawnOutcome) (oT : TermuxPlayEvent) :
    fsLookup (loop_iteration_ffplay fs temp_path oF).1 temp_path = none ∧
    fsLookup (loop_iteration_termux fs temp_path oT).1 temp_path = none := by
  cases oF <;> cases oT <;>
    simp [loop_iteration_ffplay, loop_iteration_termux, fsLookup_fsErase_self]

/-- Claim C3: the derived temp name is the MD5 hex digest of the base filename
without extension, concatenated with the original extension (dot included); it
is a pure function of the basename, so it does not depend on the directory and
is identical across repeated calls and runs. -/
theorem C3_derived_name_deterministic (d1 d2 base : String)
    (h : '/' ∉ base.data) :
    desired_name (d1 ++ "/" ++ base) = desired_name (d2 ++ "/" ++ base) ∧
    desired_name (d1 ++ "/" ++ base) =
      md5hex (splitextStr base).1 ++ (splitextStr base).2 ∧
    ∀ p q : String, basenameStr p = basenameStr q →
      desired_name p = desired_name q := by
  have hb1 := basenameStr_slash_append d1 base h
  have hb2 := basenameStr_slash_append d2 base h
  refine ⟨?_, ?_, ?_⟩
  · simp [desired_name, hb1, hb2]
  · simp [desired_name, hb1]
  · intro p q hpq
    simp [desired_name, hpq]

/-- Witness for C3 at a concrete track placed in two different directories. -/
theorem C3_derived_name_deterministic_witness :
    desired_name ("/music/a" ++ "/" ++ "songA.mp3") =
      desired_name ("/other/b" ++ "/" ++ "songA.mp3") :=
  (C3_derived_name_deterministic "/music/a" "/other/b" "songA.mp3" (by decide)).1

/-- Claim C4 (code-bug evidence): when the stream copy into the scratch file
fails (shutil.copyfileobj raises before tmp_path is assigned), the ffplay
variant returns None but leaves the truncated scratch file in the temp
directory (its handler guard tmp_path-in-locals is false), and the termux
variant raises NameError out of copy_to_temp_md5 instead of returning None. -/
theorem C4_midcopy_failure_leaves_scratch :
    (copy_to_temp_md5_ffplay [] "/tmp" "/music/songA.mp3" [7, 7, 7] [7]
        "tmpab12cd.mp3" .atCopy).result = .errNone ∧
    fsLookup (copy_to_temp_md5_ffplay [] "/tmp" "/music/songA.mp3" [7, 7, 7] [7]
        "tmpab12cd.mp3" .atCopy).fs (joinPath "/tmp" "tmpab12cd.mp3") =
      some [7] ∧
    (copy_to_temp_md5_termux [] "/tmp" "/music/songA.mp3" [7, 7, 7] [7]
        "tmpab12cd.mp3" .atCopy).result = .uncaught := by
  refine ⟨rfl, ?_, rfl⟩
  simp [copy_to_temp_md5_ffplay, fsWrite, fsErase, fsLookup]

/-- Claim C5: a player exit status of zero yields True and a nonzero status
yields False, in both variants, and a playback failure is never fatal: the
iteration ends with moving to the next track of the current permutation. -/
theorem C5_exit_status_decides_result (rc : Int) (fs : FS) (tp : String) :
    (play_file_ffplay (.exited rc) = some true ↔ rc = 0) ∧
    (play_file_ffplay (.exited rc) = some false ↔ rc ≠ 0) ∧
    (play_file_termux (.exited rc) = some true ↔ rc = 0) ∧
    (play_file_termux (.exited rc) = some false ↔ rc ≠ 0) ∧
    (loop_iteration_ffplay fs tp (.exited rc)).2 = .nextTrack ∧
    (loop_iteration_termux fs tp .playRefused).2 = .nextTrack := by
  by_cases h : rc = 0 <;>
    simp [play_file_ffplay, play_file_termux, loop_iteration_ffplay,
      loop_iteration_termux, h]

/-- The two copy_to_temp_md5 variants produce identical snapshots and final
states (they differ only in how the mid-copy failure leaves the function). -/
theorem stage_variants_agree (fs0 : FS) (td op : String)
    (content truncated : FileContent) (sn : String) (failAt : StageFailPoint) :
    (copy_to_temp_md5_termux fs0 td op content truncated sn failAt).trace =
      (copy_to_temp_md5_ffplay fs0 td op content truncated sn failAt).trace ∧
    (copy_to_temp_md5_termux fs0 td op content truncated sn failAt).fs =
      (copy_to_temp_md5_ffplay fs0 td op content truncated sn failAt).fs ∧
    ((copy_to_temp_md5_termux fs0 td op content truncated sn failAt).result =
        .ok (dest_path td op) ↔
      (copy_to_temp_md5_ffplay fs0 td op content truncated sn failAt).result =
        .ok (dest_path td op)) := by
  cases failAt <;> simp [copy_to_temp_md5_ffplay, copy_to_temp_md5_termux]

/-- What each snapshot of a copy_to_temp_md5_ffplay run shows at the
derived-name path, provided the scratch name differs from the derived name. -/
theorem stage_ffplay_dest_spec (fs0 : FS) (td op : String)
    (content truncated : FileContent) (sn : String) (failAt : StageFailPoint)
    (hs : joinPath td sn ≠ dest_path td op) :
    (∀ s ∈ (copy_to_temp_md5_ffplay fs0 td op content truncated sn failAt).trace,
        fsLookup s (dest_path td op) = fsLookup fs0 (dest_path td op) ∨
        fsLookup s (dest_path td op) = none ∨
        fsLookup s (dest_path td op) = some content) ∧
    (fsLookup fs0 (dest_path td op) = none →
      ∀ s ∈ (copy_to_temp_md5_ffplay fs0 td op content truncated sn
          failAt).trace.dropLast,
        fsLookup s (dest_path td op) = none) ∧
    ((copy_to_temp_md5_ffplay fs0 td op content truncated sn failAt).result =
        .ok (dest_path td op) →
      fsLookup (copy_to_temp_md5_ffplay fs0 td op content truncated sn
          failAt).fs (dest_path td op) = some content ∧
      fsCount (copy_to_temp_md5_ffplay fs0 td op content truncated sn
          failAt).fs (dest_path td op) = 1) := by
  have hds : dest_path td op ≠ joinPath td sn := Ne.symm hs
  have hw : ∀ c0 : FileContent,
      fsLookup (fsWrite fs0 (joinPath td sn) c0) (dest_path td op) =
        fsLookup fs0 (dest_path td op) :=
    fun c0 => fsLookup_fsWrite_ne fs0 (joinPath td sn) (dest_path td op) c0 hds
  have h2 : fsLookup
      (if fsExists (fsWrite fs0 (joinPath td sn) content) (dest_path td op) then
        fsErase (fsWrite fs0 (joinPath td sn) content) (dest_path td op)
      else fsWrite fs0 (joinPath td sn) content) (dest_path td op) = none :=
    fsLookup_ifErase_self _ _
  have hsp2 : fsLookup
      (if fsExists (fsWrite fs0 (joinPath td sn) content) (dest_path td op) then
        fsErase (fsWrite fs0 (joinPath td sn) content) (dest_path td op)
      else fsWrite fs0 (joinPath td sn) content) (joinPath td sn) =
      some content := by
    rw [fsLookup_ifErase_other _ _ _ hs]
    exact fsLookup_fsWrite_self fs0 (joinPath td sn) content
  have herase : ∀ fs1 : FS,
      fsLookup (fsErase fs1 (joinPath td sn)) (dest_path td op) =
        fsLookup fs1 (dest_path td op) :=
    fun fs1 => fsLookup_fsErase_ne fs1 (joinPath td sn) (dest_path td op) hds
  cases failAt with
  | atCreate =>
      refine ⟨?_, ?_, ?_⟩
      · intro s hsm
        simp only [copy_to_temp_md5_ffplay, List.mem_singleton] at hsm
        subst hsm
        exact Or.inl rfl
      · intro _ s hsm
        simp [copy_to_temp_md5_ffplay] at hsm
      · intro h
        simp [copy_to_temp_md5_ffplay] at h
  | atCopy =>
      refine ⟨?_, ?_, ?_⟩
      · intro s hsm
        simp only [copy_to_temp_md5_ffplay, List.mem_cons,
          List.mem_nil_iff, or_false] at hsm
        rcases hsm with h | h <;> subst h
        · exact Or.inl rfl
        · exact Or.inl (hw truncated)
      · intro h0 s hsm
        simp only [copy_to_temp_md5_ffplay, List.dropLast] at hsm
        simp only [List.mem_singleton] at hsm
        subst hsm
        exact h0
      · intro h
        simp [copy_to_temp_md5_ffplay] at h
  | atRemoveDest =>
      refine ⟨?_, ?_, ?_⟩
      · intro s hsm
        simp only [copy_to_temp_md5_ffplay, List.mem_cons,
          List.mem_nil_iff, or_false] at hsm
        rcases hsm with h | h | h <;> subst h
        · exact Or.inl rfl
        · exact Or.inl (hw content)
        · rw [herase]
          exact Or.inl (hw content)
      · intro h0 s hsm
        simp only [copy_to_temp_md5_ffplay, List.dropLast] at hsm
        simp only [List.mem_cons, List.mem_singleton, List.not_mem_nil,
          or_false] at hsm
        rcases hsm with h | h <;> subst h
        · exact h0
        · rw [hw content]; exact h0
      · intro h
        simp [copy_to_temp_md5_ffplay] at h
  | atRename =>
      refine ⟨?_, ?_, ?_⟩
      · intro s hsm
        simp only [copy_to_temp_md5_ffplay, List.mem_cons,
          List.mem_nil_iff, or_false] at hsm
        rcases hsm with h | h | h | h <;> subst h
        · exact Or.inl rfl
        · exact Or.inl (hw content)
        · exact Or.inr (Or.inl h2)
        · rw [herase]
          exact Or.inr (Or.inl h2)
      · intro h0 s hsm
        simp only [copy_to_temp_md5_ffplay, List.dropLast] at hsm
        simp only [List.mem_cons, List.mem_singleton, List.not_mem_nil,
          or_false] at hsm
        rcases hsm with h | h | h <;> subst h
        · exact h0
        · rw [hw content]; exact h0
        · exact h2
      · intro h
        simp [copy_to_temp_md5_ffplay] at h
  | noFail =>
      have h3 := fsRename_ok _ (joinPath td sn) (dest_path td op) content hsp2
      refine ⟨?_, ?_, ?_⟩
      · intro s hsm
        simp only [copy_to_temp_md5_ffplay, List.mem_cons,
          List.mem_nil_iff, or_false] at hsm
        rcases hsm with h | h | h | h <;> subst h
        · exact Or.inl rfl
        · exact Or.inl (hw content)
        · exact Or.inr (Or.inl h2)
        · exact Or.inr (Or.inr h3.1)
      · intro h0 s hsm
        simp only [copy_to_temp_md5_ffplay, List.dropLast] at hsm
        simp only [List.mem_cons, List.mem_singleton, List.not_mem_nil,
          or_false] at hsm
        rcases hsm with h | h | h <;> subst h
        · exact h0
        · rw [hw content]; exact h0
        · exact h2
      · intro _
        simp only [copy_to_temp_md5_ffplay]
        exact h3

/-- Claim C2 (amended): in both variants, the derived-name path only ever
shows a complete file during staging: every snapshot has it absent, holding
what it held before the call, or holding the full new content — never the
truncated in-progress copy (which lives only under the scratch name); when
nothing was at the derived path beforehand, nothing is observable there
before the final rename; and a successful return leaves exactly one file at
the derived path holding the latest source content (so staging the same
track twice in succession leaves exactly one file with the latest content). -/
theorem C2_publish_only_complete_copies
    (fs0 : FS) (td op : String) (content truncated : FileContent)
    (sn : String) (failAt : StageFailPoint)
    (hs : joinPath td sn ≠ dest_path td op) :
    (∀ s ∈ (copy_to_temp_md5_ffplay fs0 td op content truncated sn failAt).trace,
        fsLookup s (dest_path td op) = fsLookup fs0 (dest_path td op) ∨
        fsLookup s (dest_path td op) = none ∨
        fsLookup s (dest_path td op) = some content) ∧
    (fsLookup fs0 (dest_path td op) = none →
      ∀ s ∈ (copy_to_temp_md5_ffplay fs0 td op content truncated sn
          failAt).trace.dropLast,
        fsLookup s (dest_path td op) = none) ∧
    ((copy_to_temp_md5_ffplay fs0 td op content truncated sn failAt).result =
        .ok (dest_path td op) →
      fsLookup (copy_to_temp_md5_ffplay fs0 td op content truncated sn
          failAt).fs (dest_path td op) = some content ∧
      fsCount (copy_to_temp_md5_ffplay fs0 td op content truncated sn
          failAt).fs (dest_path td op) = 1) ∧
    (∀ s ∈ (copy_to_temp_md5_termux fs0 td op content truncated sn failAt).trace,
        fsLookup s (dest_path td op) = fsLookup fs0 (dest_path td op) ∨
        fsLookup s (dest_path td op) = none ∨
        fsLookup s (dest_path td op) = some content) ∧
    (fsLookup fs0 (dest_path td op) = none →
      ∀ s ∈ (copy_to_temp_md5_termux fs0 td op content truncated sn
          failAt).trace.dropLast,
        fsLookup s (dest_path td op) = none) ∧
    ((copy_to_temp_md5_termux fs0 td op content truncated sn failAt).result =
        .ok (dest_path td op) →
      fsLookup (copy_to_temp_md5_termux fs0 td op content truncated sn
          failAt).fs (dest_path td op) = some content ∧
      fsCount (copy_to_temp_md5_termux fs0 td op content truncated sn
          failAt).fs (dest_path td op) = 1) := by
  obtain ⟨ht, hf, hr⟩ :=
    stage_variants_agree fs0 td op content truncated sn failAt
  obtain ⟨a, b, c⟩ :=
    stage_ffplay_dest_spec fs0 td op content truncated sn failAt hs
  refine ⟨a, b, c, ?_, ?_, ?_⟩
  · rw [ht]; exact a
  · rw [ht]; exact b
  · intro h
    rw [hf]
    exact c (hr.mp h)

set_option maxRecDepth 1000000 in
/-- Counterexample to claim C2 as frozen: it is not true that nothing
observable ever exists at the derived-name path before the final rename step.
Staging the same track a second time (the overwrite situation the claim
itself invokes) shows the previous complete copy at the derived path in the
snapshot taken after the scratch copy, before the remove-and-rename. -/
theorem C2_counterexample :
    (fsLookup
      ((copy_to_temp_md5_ffplay
          (copy_to_temp_md5_ffplay [] "/tmp" "/m/songA.mp3" [0] [] "tmpaa11.mp3"
            .noFail).fs
          "/tmp" "/m/songA.mp3" [1] [] "tmpbb22.mp3" .noFail).trace.getD 1 [])
      (dest_path "/tmp" "/m/songA.mp3")).isSome = true := by
  decide

set_option maxRecDepth 1000000 in
/-- Witness for C2 at a concrete successful staging run. -/
theorem C2_publish_only_complete_copies_witness :
    fsLookup (copy_to_temp_md5_ffplay [] "/tmp" "/m/songA.mp3" [1] []
        "tmpaa11.mp3" .noFail).fs (dest_path "/tmp" "/m/songA.mp3") =
      some [1] ∧
    fsCount (copy_to_temp_md5_ffplay [] "/tmp" "/m/songA.mp3" [1] []
        "tmpaa11.mp3" .noFail).fs (dest_path "/tmp" "/m/songA.mp3") = 1 :=
  (C2_publish_only_complete_copies [] "/tmp" "/m/songA.mp3" [1] [] "tmpaa11.mp3"
      .noFail (by decide)).2.2.1 rfl

/-- Claim C6: on an interruption signal during playback, the live ffplay
process is sent terminate first, is killed exactly when it outlives the
2-second grace wait, and the handle slot is cleared; the staged file of the
current track is removed on the way out, and in both variants the process
then exits with the success-equivalent status 0. -/
theorem C6_interrupt_graceful_stop (pr : PlayerProc) (h : pr.alive = true)
    (fs : FS) (tp : String) :
    (cleanup_ffplay (some pr)).1.head? = some KillAction.terminate ∧
    (KillAction.kill ∈ (cleanup_ffplay (some pr)).1 ↔
      pr.diesWithinGrace = false) ∧
    (cleanup_ffplay (some pr)).2 = none ∧
    fsLookup (loop_iteration_ffplay fs tp .interrupted).1 tp = none ∧
    (loop_iteration_ffplay fs tp .interrupted).2 = .exitCode 0 ∧
    fsLookup (loop_iteration_termux fs tp .interrupted).1 tp = none ∧
    (loop_iteration_termux fs tp .interrupted).2 = .exitCode 0 := by
  rcases pr with ⟨al, dg⟩
  simp only at h
  subst h
  cases dg <;>
    simp [cleanup_ffplay, loop_iteration_ffplay, loop_iteration_termux,
      fsLookup_fsErase_self]

/-- Witness for C6 with a live process that ignores terminate. -/
theorem C6_interrupt_graceful_stop_witness :
    (cleanup_ffplay (some ⟨true, false⟩)).1.head? = some KillAction.terminate :=
  (C6_interrupt_graceful_stop ⟨true, false⟩ rfl [] "/tmp/x.mp3").1

/-- Counterexample to claim C7 as frozen: the termux variant does not exit
with status 1 when the external player is missing at startup — with a valid
directory and a non-empty library it proceeds into the playback loop despite
the player being absent from PATH (it never checks). -/
theorem C7_counterexample :
    main_startup_termux ⟨2, true, false, [("root", ["a.mp3"])]⟩ =
      .proceed ["root/a.mp3"] ∧
    main_startup_termux ⟨2, true, false, [("root", ["a.mp3"])]⟩ ≠ .exit1 := by
  constructor <;> decide

/-- Claim C7 (amended): startup exits with status 1, before any staging or
playback, exactly on: wrong argument count, non-directory path, (ffplay
variant only) missing external player, or empty library; the termux variant
performs no startup player check, so a missing player alone does not make it
exit. -/
theorem C7_fatal_startup_paths (e : StartupEnv) :
    (main_startup_ffplay e = .exit1 ↔
      e.argc ≠ 2 ∨ e.folderIsDir = false ∨ e.playerOnPath = false ∨
        gather_music_files e.walk = []) ∧
    (main_startup_termux e = .exit1 ↔
      e.argc ≠ 2 ∨ e.folderIsDir = false ∨ gather_music_files e.walk = []) := by
  rcases e with ⟨argc, dir, pp, walk⟩
  by_cases ha : argc = 2 <;> by_cases hd : dir = true <;>
    by_cases hp : pp = true <;> by_cases hw : gather_music_files walk = [] <;>
      simp [main_startup_ffplay, main_startup_termux, ha, hd, hp, hw]

set_option maxRecDepth 1000000 in
/-- Counterexample to claim C8 as frozen: the staged-copy name does not use
the lower-cased extension. A track named Song.MP3 passes the (lower-cased)
filter, but its staged name carries the original-case extension .MP3, not
.mp3. -/
theorem C8_counterexample :
    keepName "Song.MP3" = true ∧
    desired_name "/m/Song.MP3" = md5hex "Song" ++ ".MP3" ∧
    desired_name "/m/Song.MP3" ≠ md5hex "Song" ++ ".mp3" := by
  refine ⟨by decide, by decide, by decide⟩

/-- Claim C8 (amended): the lower-cased extension is used for the allow-list
filtering decision only; the staged file's name is the hash digest
concatenated with the extension exactly as it appears in the source filename
(case preserved), which differs from the lower-cased form whenever the
extension contains an upper-case letter. -/
theorem C8_filter_lowers_staging_preserves (p : String) :
    (keepName (basenameStr p) = true ↔
      MUSIC_EXTS.contains (lowerStr (splitextStr (basenameStr p)).2) = true) ∧
    desired_name p =
      md5hex (splitextStr (basenameStr p)).1 ++
        (splitextStr (basenameStr p)).2 ∧
    ((splitextStr (basenameStr p)).2 ≠
        lowerStr (splitextStr (basenameStr p)).2 →
      desired_name p ≠
        md5hex (splitextStr (basenameStr p)).1 ++
          lowerStr (splitextStr (basenameStr p)).2) := by
  refine ⟨Iff.rfl, rfl, ?_⟩
  intro hne heq
  exact hne (strAppend_left_cancel _ _ _ ((rfl :
    desired_name p = md5hex (splitextStr (basenameStr p)).1 ++
      (splitextStr (basenameStr p)).2) ▸ heq))

/-- Witness for C8 (amended) at the mixed-case track Song.MP3. -/
theorem C8_filter_lowers_staging_preserves_witness :
    desired_name "/m/Song.MP3" ≠
      md5hex (splitextStr (basenameStr "/m/Song.MP3")).1 ++
        lowerStr (splitextStr (basenameStr "/m/Song.MP3")).2 :=
  (C8_filter_lowers_staging_preserves "/m/Song.MP3").2.2 (by decide)

/-- Counterexample to claim C9 as frozen: in the termux variant a missing
player discovered after playback has begun does terminate the process —
is_playing maps FileNotFoundError to sys.exit(1), and the iteration ends with
exit status 1 instead of moving on. -/
theorem C9_counterexample :
    is_playing .fileNotFound = .exitProcess 1 ∧
    (loop_iteration_termux [] "/tmp/x.mp3" .playOkThenPollMissing).2 =
      .exitCode 1 := by
  exact ⟨rfl, rfl⟩

/-- Claim C9 (amended): the missing-player-is-fatal-at-startup-only property
holds for the ffplay variant: whenever ffplay is absent from PATH, startup
exits with status 1 before the loop, and once the loop runs, a spawn failure
is a caught, per-track failure that moves to the next track; the termux
variant instead has no startup check and its in-loop poll terminates the
process with status 1 on a missing player. -/
theorem C9_missing_player_fatality (e : StartupEnv)
    (h : e.playerOnPath = false) (fs : FS) (tp : String) :
    main_startup_ffplay e = .exit1 ∧
    play_file_ffplay .spawnError = some false ∧
    (loop_iteration_ffplay fs tp .spawnError).2 = .nextTrack ∧
    is_playing .fileNotFound = .exitProcess 1 ∧
    (loop_iteration_termux fs tp .playOkThenPollMissing).2 = .exitCode 1 := by
  refine ⟨?_, rfl, rfl, rfl, rfl⟩
  rcases e with ⟨argc, dir, pp, walk⟩
  simp only at h
  subst h
  by_cases ha : argc = 2 <;> by_cases hd : dir = true <;>
    simp [main_startup_ffplay, ha, hd]

/-- Witness for C9 (amended) with ffplay absent from PATH. -/
theorem C9_missing_player_fatality_witness :
    main_startup_ffplay ⟨2, true, false, []⟩ = .exit1 :=
  (C9_missing_player_fatality ⟨2, true, false, []⟩ rfl [] "/tmp/x.mp3").1

/-- Claim C10: a file whose entire name is one leading dot followed by an
allow-listed extension (such as .mp3) is excluded by the scanner:
os.path.splitext gives it an empty extension, so it never enters the library
even though its visible suffix matches the allow-list. -/
theorem C10_dot_only_name_excluded (ext root : String) (h : ext ∈ MUSIC_EXTS) :
    splitextStr ext = (ext, "") ∧ keepName ext = false ∧
    gather_music_files [(root, [ext])] = [] := by
  have h1 : splitextStr ext = (ext, "") := by fin_cases h <;> decide
  have h2 : keepName ext = false := by fin_cases h <;> decide
  refine ⟨h1, h2, ?_⟩
  simp [gather_music_files, List.filter_cons, h2]

/-- Witness for C10 at the dotfile named .mp3. -/
theorem C10_dot_only_name_excluded_witness :
    splitextStr ".mp3" = (".mp3", "") ∧ keepName ".mp3" = false ∧
    gather_music_files [("music", [".mp3"])] = [] :=
  C10_dot_only_name_excluded ".mp3" "music" (by decide)
